import Mathlib

/-!
# randnumchar: a character device that hands out a random number

Shallow embedding of `src/randnum_char.c`.

* The five file-scope variables of the module (`majorNumber`, `randnum`,
  `numberOpens`, `randnumcharClass`, `randnumcharDevice`) are fields of `State`.
* The kernel is outside the repository.  What it answers (the value returned by
  `register_chrdev`, `class_create`, `device_create`, `copy_to_user`, the bytes
  produced by `get_random_bytes`) is an explicit argument of the function that
  makes the call.  What the module asks of it is recorded, in program order, in
  `State.klog`; what the registration service currently holds on behalf of the
  module is recorded in `State.registry`.
* C integers are mathematical integers with an explicit reduction at each
  conversion (`to_int`, `to_long`, `to_unsigned_int`, `to_unsigned_long`).  The
  target is LP64 (`int` 32 bits, `long`, `size_t`, `ssize_t` and pointers 64 bits);
  signed arithmetic wraps, as the kernel is built with `-fno-strict-overflow`.
-/

namespace Randnumchar

/-! ## Machine integers -/

/-- Largest value of a C `int`. -/
def INT_MAX : Int := 2147483647

/-- Smallest value of a C `int`. -/
def INT_MIN : Int := -2147483648

/-- Largest value of `ssize_t` (a `long`). -/
def SSIZE_MAX : Int := 9223372036854775807

/-- Largest value of `size_t` (an `unsigned long`). -/
def SIZE_MAX : Nat := 18446744073709551615

/-- Value of an integer expression once stored in a C `int`. -/
def to_int (x : Int) : Int := (x + 2147483648) % 4294967296 - 2147483648

/-- Value of an integer expression once stored in a C `unsigned int`. -/
def to_unsigned_int (x : Int) : Nat := (x % 4294967296).toNat

/-- Value of an integer expression once stored in a C `long` (also `ssize_t`). -/
def to_long (x : Int) : Int :=
  (x + 9223372036854775808) % 18446744073709551616 - 9223372036854775808

/-- Value of an integer expression once stored in a C `unsigned long` (also `size_t`). -/
def to_unsigned_long (x : Int) : Nat := (x % 18446744073709551616).toNat

/-- A machine address. -/
abbrev Ptr := Nat

/-- One `char` of storage. -/
abbrev Byte := Fin 256

/-- The null pointer. -/
def NULL : Ptr := 0

/-! ## Constants of the source -/

/-- `#define DEVICE_NAME "randnumchar"`. -/
def DEVICE_NAME : String := "randnumchar"

/-- `#define CLASS_NAME "randnum"`. -/
def CLASS_NAME : String := "randnum"

/-- `#define RANDNUM_MAXSIZE 256`. -/
def RANDNUM_MAXSIZE : Nat := 256

/-- `sizeof(unsigned int)`. -/
def sizeof_unsigned_int : Nat := 4

/-- `EFAULT`, the bad-address error number. -/
def EFAULT : Int := 14

/-! ## Kernel macros used by the source -/

/-- Modelled from the spec: the kernel header that defines `MAX_ERRNO` is not part
of the repository.  A creation step answers `Handle | Error`; the kernel packs the
two into one pointer, the top `MAX_ERRNO` addresses standing for the errors. -/
def MAX_ERRNO : Nat := 4095

/-- Modelled from the spec: `IS_ERR` is a kernel macro, not part of the repository.
A creation step answers `Handle | Error`; `IS_ERR p` says the answer is an error:
`(unsigned long)p >= (unsigned long)-MAX_ERRNO`. -/
def IS_ERR (p : Ptr) : Bool :=
  decide (to_unsigned_long (-(MAX_ERRNO : Int)) ≤ to_unsigned_long p)

/-- Modelled from the spec: `PTR_ERR` is a kernel macro, not part of the repository.
It is the error carried by an error answer: `(long)p`. -/
def PTR_ERR (p : Ptr) : Int := to_long p

/-- Modelled from the spec: `MINORBITS` comes from a kernel header, not part of the
repository. -/
def MINORBITS : Nat := 20

/-- Modelled from the spec: `MKDEV` is a kernel macro, not part of the repository:
`((ma) << MINORBITS) | (mi)`, here with an `int` major, passed on as a 32-bit
`dev_t`. -/
def MKDEV (ma : Int) (mi : Nat) : Nat :=
  to_unsigned_int (ma * 2 ^ MINORBITS) ||| mi

/-! ## What the kernel is asked, and what it holds -/

/-- Severity given to `printk`. -/
inductive LogLevel
  | KERN_ALERT
  | KERN_INFO
  deriving DecidableEq, Repr

/-- One call from the module into the kernel, with the arguments passed. -/
inductive KCall
  | printk (level : LogLevel) (fmt : String) (args : List Int)
  | register_chrdev (major : Nat) (name : String)
  | unregister_chrdev (major : Nat) (name : String)
  | class_create (name : String)
  | class_unregister (cls : Ptr)
  | class_destroy (cls : Ptr)
  | device_create (cls : Ptr) (parent : Ptr) (devt : Nat) (drvdata : Ptr) (name : String)
  | device_destroy (cls : Ptr) (devt : Nat)
  | get_random_bytes (nbytes : Nat)
  | copy_to_user (dst : Ptr) (src : List Byte) (n : Nat)
  deriving DecidableEq, Repr

/-- A class is first registered; unregistering it leaves it to be destroyed. -/
inductive ClassStage
  | registered
  | unregistered
  deriving DecidableEq, Repr

/-- The resources the registration service holds for the module: a device number
(with the name it was taken under), a class, a device node (with its class and
`dev_t`). -/
structure Registry where
  chrdev : Option (Nat × String)
  cls : Option (Ptr × ClassStage)
  node : Option (Ptr × Ptr × Nat)
  deriving DecidableEq, Repr

/-- Nothing is held. -/
def Registry.empty : Registry := { chrdev := none, cls := none, node := none }

/-- The module's file-scope variables, then the kernel side: the resources held
and the calls made so far. -/
structure State where
  majorNumber : Int
  randnum : List Byte
  numberOpens : Int
  randnumcharClass : Ptr
  randnumcharDevice : Ptr
  registry : Registry
  klog : List KCall
  deriving DecidableEq, Repr

/-- The module as loaded, before `randnumchar_init` runs: statics zeroed or as
written in their initialisers, nothing registered, no call made. -/
def State.initial : State :=
  { majorNumber := 0
    randnum := List.replicate RANDNUM_MAXSIZE 0
    numberOpens := 0
    randnumcharClass := NULL
    randnumcharDevice := NULL
    registry := Registry.empty
    klog := [] }

/-- Record a call into the kernel. -/
def State.call (s : State) (c : KCall) : State := { s with klog := s.klog ++ [c] }

/-! ## The kernel primitives

Each records the call.  A primitive with an answer takes the answer (`resp`) from
the environment; the registry follows the registration service contract. -/

/-- Modelled from the spec: `printk` is a kernel function, not part of the
repository.  It only emits a diagnostic. -/
def printk (s : State) (level : LogLevel) (fmt : String) (args : List Int) : State :=
  s.call (KCall.printk level fmt args)

/-- Modelled from the spec: `acquire_identifier(dispatch_table) -> Identifier |
AllocationError`.  A kernel function, not part of the repository: a negative answer
is the error, any other answer is the number now held.  The dispatch table passed
is always `&fops` and is not recorded. -/
def register_chrdev (resp : Int) (s : State) (major : Nat) (name : String) : Int × State :=
  let s1 := s.call (KCall.register_chrdev major name)
  if resp < 0 then (resp, s1)
  else (resp, { s1 with registry := { s1.registry with chrdev := some (to_unsigned_int resp, name) } })

/-- Modelled from the spec: `release_identifier`.  A kernel function, not part of
the repository: the number is given back if it is the one held under that name. -/
def unregister_chrdev (s : State) (major : Nat) (name : String) : State :=
  let s1 := s.call (KCall.unregister_chrdev major name)
  if s1.registry.chrdev = some (major, name) then
    { s1 with registry := { s1.registry with chrdev := none } }
  else s1

/-- Modelled from the spec: `create_class(identifier, name) -> ClassHandle |
ClassCreationError`.  A kernel function, not part of the repository: an answer that
is not an error is the class now held, registered.  The owner passed is always
`THIS_MODULE` and is not recorded. -/
def class_create (resp : Ptr) (s : State) (name : String) : Ptr × State :=
  let s1 := s.call (KCall.class_create name)
  if IS_ERR resp then (resp, s1)
  else (resp, { s1 with registry := { s1.registry with cls := some (resp, ClassStage.registered) } })

/-- Modelled from the spec: `unregister_class`.  A kernel function, not part of the
repository: the class held under that handle is no longer registered. -/
def class_unregister (s : State) (cls : Ptr) : State :=
  let s1 := s.call (KCall.class_unregister cls)
  if s1.registry.cls = some (cls, ClassStage.registered) then
    { s1 with registry := { s1.registry with cls := some (cls, ClassStage.unregistered) } }
  else s1

/-- Modelled from the spec: `destroy_class`.  A kernel function, not part of the
repository: the class held under that handle, registered or not, is let go. -/
def class_destroy (s : State) (cls : Ptr) : State :=
  let s1 := s.call (KCall.class_destroy cls)
  match s1.registry.cls with
  | some (c, _) =>
    if c = cls then { s1 with registry := { s1.registry with cls := none } } else s1
  | none => s1

/-- Modelled from the spec: `create_node(class, identifier, name) -> NodeHandle |
NodeCreationError`.  A kernel function, not part of the repository: an answer that
is not an error is the node now held, for that class and `dev_t`. -/
def device_create (resp : Ptr) (s : State) (cls parent : Ptr) (devt : Nat) (drvdata : Ptr)
    (name : String) : Ptr × State :=
  let s1 := s.call (KCall.device_create cls parent devt drvdata name)
  if IS_ERR resp then (resp, s1)
  else (resp, { s1 with registry := { s1.registry with node := some (resp, cls, devt) } })

/-- Modelled from the spec: `destroy_node`.  A kernel function, not part of the
repository: the node held for that class and `dev_t` is let go. -/
def device_destroy (s : State) (cls : Ptr) (devt : Nat) : State :=
  let s1 := s.call (KCall.device_destroy cls devt)
  match s1.registry.node with
  | some (_, c, d) =>
    if c = cls ∧ d = devt then { s1 with registry := { s1.registry with node := none } } else s1
  | none => s1

/-- Bytes of `buf` after `nbytes` generated bytes are stored from its start; `rnd i`
is the `i`-th byte generated. -/
def fill_bytes (rnd : Nat → Byte) (buf : List Byte) (nbytes : Nat) : List Byte :=
  (List.range (min nbytes buf.length)).map rnd ++ buf.drop nbytes

/-- Modelled from the spec: `fill(buffer, byte_count)` fills exactly `byte_count`
bytes and always succeeds.  A kernel function, not part of the repository; the
buffer passed by the module is `randnum`. -/
def get_random_bytes (rnd : Nat → Byte) (s : State) (nbytes : Nat) : State :=
  let s1 := s.call (KCall.get_random_bytes nbytes)
  { s1 with randnum := fill_bytes rnd s1.randnum nbytes }

/-- Modelled from the spec: `copy_to_caller(destination, source, byte_count) ->
success | fault_count`.  A kernel function, not part of the repository: the answer
is the number of bytes that could not be copied (`0` on success, at most `n`); the
bytes offered are the first `n` of the source. -/
def copy_to_user (resp : Nat) (s : State) (dst : Ptr) (src : List Byte) (n : Nat) : Nat × State :=
  (resp, s.call (KCall.copy_to_user dst (src.take n) n))

/-! ## The module -/

/-- `static int __init randnumchar_init(void)`.  The three answers of the
registration service are `chrdev_resp`, `class_resp`, `device_resp`. -/
def randnumchar_init (s : State) (chrdev_resp : Int) (class_resp device_resp : Ptr) :
    Int × State :=
  let s1 := printk s LogLevel.KERN_INFO "randnumchar: Initializing the randnumchar LKM\n" []
  let r := register_chrdev chrdev_resp s1 0 DEVICE_NAME
  let s2 : State := { r.2 with majorNumber := r.1 }
  if s2.majorNumber < 0 then
    let s3 := printk s2 LogLevel.KERN_ALERT "randnumchar failed to register a major number\n" []
    (s3.majorNumber, s3)
  else
    let s3 := printk s2 LogLevel.KERN_INFO
      "randnumchar: registered correctly with major number %d\n" [s2.majorNumber]
    let c := class_create class_resp s3 CLASS_NAME
    let s4 : State := { c.2 with randnumcharClass := c.1 }
    if IS_ERR s4.randnumcharClass then
      let s5 := unregister_chrdev s4 (to_unsigned_int s4.majorNumber) DEVICE_NAME
      let s6 := printk s5 LogLevel.KERN_ALERT "Failed to register device class\n" []
      (to_int (PTR_ERR s6.randnumcharClass), s6)
    else
      let s5 := printk s4 LogLevel.KERN_INFO "randnumchar: device class registered correctly\n" []
      let d := device_create device_resp s5 s5.randnumcharClass NULL (MKDEV s5.majorNumber 0)
        NULL DEVICE_NAME
      let s6 : State := { d.2 with randnumcharDevice := d.1 }
      if IS_ERR s6.randnumcharDevice then
        let s7 := class_destroy s6 s6.randnumcharClass
        let s8 := unregister_chrdev s7 (to_unsigned_int s7.majorNumber) DEVICE_NAME
        let s9 := printk s8 LogLevel.KERN_ALERT "Failed to create the device\n" []
        (to_int (PTR_ERR s9.randnumcharDevice), s9)
      else
        let s7 := printk s6 LogLevel.KERN_INFO "randnumchar: device class created correctly\n" []
        (0, s7)

/-- `static void __exit randnumchar_exit(void)`. -/
def randnumchar_exit (s : State) : State :=
  let s1 := device_destroy s s.randnumcharClass (MKDEV s.majorNumber 0)
  let s2 := class_unregister s1 s1.randnumcharClass
  let s3 := class_destroy s2 s2.randnumcharClass
  let s4 := unregister_chrdev s3 (to_unsigned_int s3.majorNumber) DEVICE_NAME
  printk s4 LogLevel.KERN_INFO "randnumchar: Goodbye from the LKM!\n" []

/-- `static int dev_open(struct inode *inodep, struct file *filep)`. -/
def dev_open (s : State) (_inodep _filep : Ptr) : Int × State :=
  let s1 : State := { s with numberOpens := to_int (s.numberOpens + 1) }
  let s2 := printk s1 LogLevel.KERN_INFO "randnumchar: Device has been opened %d time(s)\n"
    [s1.numberOpens]
  (0, s2)

/-- `static ssize_t dev_read(struct file *filep, char *buffer, size_t len, loff_t *offset)`.
The bytes generated are `rnd`, the answer of `copy_to_user` is `not_copied`. -/
def dev_read (s : State) (_filep buffer : Ptr) (_len : Nat) (_offset : Ptr)
    (rnd : Nat → Byte) (not_copied : Nat) : Int × State :=
  let s1 := get_random_bytes rnd s sizeof_unsigned_int
  let c := copy_to_user not_copied s1 buffer s1.randnum sizeof_unsigned_int
  let error_count := to_int c.1
  if error_count = 0 then
    let s2 := printk c.2 LogLevel.KERN_INFO "randnumchar: Sent a random number to the user\n" []
    (to_long 0, s2)
  else
    let s2 := printk c.2 LogLevel.KERN_INFO
      "randnumchar: Failed to send %d characters to the user\n" [error_count]
    (to_long (-EFAULT), s2)

/-- `static ssize_t dev_write(struct file *filep, const char *buffer, size_t len, loff_t *offset)`.
The `size_t` argument is returned as an `ssize_t`. -/
def dev_write (s : State) (_filep _buffer : Ptr) (len : Nat) (_offset : Ptr) : Int × State :=
  let s1 := printk s LogLevel.KERN_INFO "randnumchar: Write operation is not supported.\n" []
  (to_long (to_unsigned_long len), s1)

/-- `static int dev_release(struct inode *inodep, struct file *filep)`. -/
def dev_release (s : State) (_inodep _filep : Ptr) : Int × State :=
  let s1 := printk s LogLevel.KERN_INFO "randnumchar: Device successfully closed\n" []
  (0, s1)

/-! ## Client calls, as dispatched through `fops` -/

/-- One client operation on the device, with its arguments and, for a read, what
the environment answers during it. -/
inductive Call
  | dev_open (inodep filep : Ptr)
  | dev_read (filep buffer : Ptr) (len : Nat) (offset : Ptr) (rnd : Nat → Byte) (not_copied : Nat)
  | dev_write (filep buffer : Ptr) (len : Nat) (offset : Ptr)
  | dev_release (inodep filep : Ptr)

/-- Dispatch through `fops`: `.open = dev_open`, `.read = dev_read`,
`.write = dev_write`, `.release = dev_release`. -/
def fops (s : State) : Call → Int × State
  | Call.dev_open inodep filep => dev_open s inodep filep
  | Call.dev_read filep buffer len offset rnd not_copied =>
    dev_read s filep buffer len offset rnd not_copied
  | Call.dev_write filep buffer len offset => dev_write s filep buffer len offset
  | Call.dev_release inodep filep => dev_release s inodep filep

/-- State after a single-threaded sequence of client calls. -/
def run (s : State) (calls : List Call) : State :=
  calls.foldl (fun t c => (fops t c).2) s

/-- Whether a call is an open. -/
def Call.isOpen : Call → Bool
  | Call.dev_open _ _ => true
  | _ => false

/-- Number of open calls in a sequence. -/
def countOpens (calls : List Call) : Nat := calls.countP Call.isOpen

/-- The module is fully set up: the service holds the device number, the
registered class and the node that the module's variables refer to. -/
def FullyInitialised (s : State) : Prop :=
  s.registry.chrdev = some (to_unsigned_int s.majorNumber, DEVICE_NAME) ∧
  s.registry.cls = some (s.randnumcharClass, ClassStage.registered) ∧
  s.registry.node = some (s.randnumcharDevice, s.randnumcharClass, MKDEV s.majorNumber 0)

/-! ## Concrete inputs -/

/-- A byte generator used in the witnesses: byte `i` is `17 * i + 3` modulo 256. -/
def sampleBytes (i : Nat) : Byte := ⟨(17 * i + 3) % 256, Nat.mod_lt _ (by decide)⟩

/-- The state after loading and one read whose copy failed on all four bytes. -/
def afterFailedRead : State := (dev_read State.initial 0 4096 8 0 sampleBytes 4).2

/-- The loaded module with the counter at the largest `int`. -/
def counterAtMax : State := { State.initial with numberOpens := INT_MAX }

/-- A sequence of 2^31 open calls. -/
def manyOpens : List Call := List.replicate 2147483648 (Call.dev_open 0 0)

/-- A short session: open, a read that succeeds, a read that fails, a write, a close,
a second open. -/
def sampleSession : List Call :=
  [Call.dev_open 0 0, Call.dev_read 0 4096 4 0 sampleBytes 0, Call.dev_read 0 4096 4 0 sampleBytes 4,
   Call.dev_write 0 4096 10 0, Call.dev_release 0 0, Call.dev_open 0 0]

/-! ## Machine-integer facts -/

theorem to_int_of_range (x : Int) (h1 : INT_MIN ≤ x) (h2 : x ≤ INT_MAX) : to_int x = x := by
  unfold INT_MIN at h1
  unfold INT_MAX at h2
  unfold to_int
  omega

theorem to_long_of_range (x : Int) (h1 : -9223372036854775808 ≤ x) (h2 : x ≤ SSIZE_MAX) :
    to_long x = x := by
  unfold SSIZE_MAX at h2
  unfold to_long
  omega

theorem to_unsigned_long_of_range (n : Nat) (h : (n : Int) ≤ SSIZE_MAX) :
    (to_unsigned_long n : Int) = n := by
  unfold SSIZE_MAX at h
  unfold to_unsigned_long
  omega

theorem PTR_ERR_range (p : Ptr) (h : IS_ERR p = true) :
    -4095 ≤ PTR_ERR p ∧ PTR_ERR p < 0 := by
  unfold IS_ERR to_unsigned_long MAX_ERRNO at h
  unfold PTR_ERR to_long
  simp only [decide_eq_true_eq] at h
  omega

theorem to_int_PTR_ERR (p : Ptr) (h : IS_ERR p = true) : to_int (PTR_ERR p) = PTR_ERR p := by
  have hr := PTR_ERR_range p h
  apply to_int_of_range
  · unfold INT_MIN; omega
  · unfold INT_MAX; omega

/-! ## Buffer facts -/

theorem fill_bytes_length (rnd : Nat → Byte) (buf : List Byte) (n : Nat) :
    (fill_bytes rnd buf n).length = buf.length := by
  unfold fill_bytes
  simp
  omega

theorem fill_bytes_drop (rnd : Nat → Byte) (buf : List Byte) (n : Nat) :
    (fill_bytes rnd buf n).drop n = buf.drop n := by
  unfold fill_bytes
  by_cases h : n ≤ buf.length
  · rw [List.drop_append_eq_append_drop]
    simp [Nat.min_eq_left h]
  · have h2 : buf.length ≤ n := by omega
    rw [List.drop_append_eq_append_drop]
    simp [Nat.min_eq_right h2, List.drop_eq_nil_of_le h2]
    omega

theorem fill_bytes_take (rnd : Nat → Byte) (buf : List Byte) (n : Nat) (h : n ≤ buf.length) :
    (fill_bytes rnd buf n).take n = (List.range n).map rnd := by
  unfold fill_bytes
  rw [Nat.min_eq_left h, List.take_append_eq_append_take]
  simp

/-! ## Sequences of client calls -/

theorem run_nil (s : State) : run s [] = s := rfl

theorem run_cons (s : State) (c : Call) (cs : List Call) :
    run s (c :: cs) = run (fops s c).2 cs := rfl

theorem fops_numberOpens (s : State) (c : Call) :
    (fops s c).2.numberOpens
      = if c.isOpen = true then to_int (s.numberOpens + 1) else s.numberOpens := by
  cases c with
  | dev_open inodep filep => simp [fops, dev_open, printk, State.call, Call.isOpen]
  | dev_read filep buffer len offset rnd not_copied =>
    by_cases h : to_int (not_copied : Int) = 0 <;>
      simp [fops, dev_read, copy_to_user, get_random_bytes, printk, State.call, Call.isOpen, h]
  | dev_write filep buffer len offset => simp [fops, dev_write, printk, State.call, Call.isOpen]
  | dev_release inodep filep => simp [fops, dev_release, printk, State.call, Call.isOpen]

theorem run_numberOpens (calls : List Call) :
    ∀ s : State, to_int s.numberOpens = s.numberOpens →
      (run s calls).numberOpens = to_int (s.numberOpens + countOpens calls) := by
  induction calls with
  | nil =>
    intro s hs
    simp [run_nil, countOpens, hs]
  | cons c cs ih =>
    intro s hs
    rw [run_cons]
    have hstep := fops_numberOpens s c
    have hfix : to_int (fops s c).2.numberOpens = (fops s c).2.numberOpens := by
      rw [hstep]
      split
      · unfold to_int; omega
      · exact hs
    rw [ih _ hfix, hstep]
    unfold countOpens
    rw [List.countP_cons]
    split
    · unfold to_int
      push_cast
      omega
    · simp

/-! ## The stream handler -/

/-- C1: for every state, destination and requested length of at least 4, when
`copy_to_user` answers 0 (nothing left uncopied), `dev_read` calls
`get_random_bytes` once, then `copy_to_user`, then only logs, and returns 0, which
is not the number of bytes copied. -/
theorem dev_read_success_returns_zero (s : State) (filep buffer : Ptr) (len : Nat)
    (offset : Ptr) (rnd : Nat → Byte) (hlen : sizeof_unsigned_int ≤ len) :
    (dev_read s filep buffer len offset rnd 0).1 = 0 ∧
    (dev_read s filep buffer len offset rnd 0).1 ≠ (sizeof_unsigned_int : Int) ∧
    (dev_read s filep buffer len offset rnd 0).2.klog = s.klog ++
      [KCall.get_random_bytes sizeof_unsigned_int,
       KCall.copy_to_user buffer
         ((fill_bytes rnd s.randnum sizeof_unsigned_int).take sizeof_unsigned_int)
         sizeof_unsigned_int,
       KCall.printk LogLevel.KERN_INFO "randnumchar: Sent a random number to the user\n" []] := by
  have _ := hlen
  refine ⟨?_, ?_, ?_⟩
  · simp [dev_read, copy_to_user, to_int, to_long]
  · simp [dev_read, copy_to_user, to_int, to_long, sizeof_unsigned_int]
  · simp [dev_read, copy_to_user, get_random_bytes, printk, State.call, to_int]

/-- A successful read of four bytes right after a failed read returns 0. -/
theorem dev_read_success_returns_zero_witness :
    (dev_read afterFailedRead 0 4096 4 0 sampleBytes 0).1 = 0 ∧
    (dev_read afterFailedRead 0 4096 4 0 sampleBytes 0).1 ≠ (sizeof_unsigned_int : Int) ∧
    (dev_read afterFailedRead 0 4096 4 0 sampleBytes 0).2.klog = afterFailedRead.klog ++
      [KCall.get_random_bytes sizeof_unsigned_int,
       KCall.copy_to_user 4096
         ((fill_bytes sampleBytes afterFailedRead.randnum sizeof_unsigned_int).take
           sizeof_unsigned_int)
         sizeof_unsigned_int,
       KCall.printk LogLevel.KERN_INFO "randnumchar: Sent a random number to the user\n" []] :=
  dev_read_success_returns_zero afterFailedRead 0 4096 4 0 sampleBytes (by decide)

/-- C2: for every state and requested length, when `copy_to_user` answers a
non-zero count of bytes not copied (at most the 4 offered), `dev_read` returns
`-EFAULT`, that is -14; after the failed copy it only logs: the counter, the
registration state and the identity variables are as before, the buffer is as the
single generator call left it. -/
theorem dev_read_copy_fault (s : State) (filep buffer : Ptr) (len : Nat) (offset : Ptr)
    (rnd : Nat → Byte) (not_copied : Nat) (h0 : not_copied ≠ 0)
    (hle : not_copied ≤ sizeof_unsigned_int) :
    (dev_read s filep buffer len offset rnd not_copied).1 = -EFAULT ∧
    (dev_read s filep buffer len offset rnd not_copied).1 = -14 ∧
    (dev_read s filep buffer len offset rnd not_copied).2.numberOpens = s.numberOpens ∧
    (dev_read s filep buffer len offset rnd not_copied).2.registry = s.registry ∧
    (dev_read s filep buffer len offset rnd not_copied).2.majorNumber = s.majorNumber ∧
    (dev_read s filep buffer len offset rnd not_copied).2.randnumcharClass = s.randnumcharClass ∧
    (dev_read s filep buffer len offset rnd not_copied).2.randnumcharDevice
      = s.randnumcharDevice ∧
    (dev_read s filep buffer len offset rnd not_copied).2.randnum
      = fill_bytes rnd s.randnum sizeof_unsigned_int ∧
    (dev_read s filep buffer len offset rnd not_copied).2.klog = s.klog ++
      [KCall.get_random_bytes sizeof_unsigned_int,
       KCall.copy_to_user buffer
         ((fill_bytes rnd s.randnum sizeof_unsigned_int).take sizeof_unsigned_int)
         sizeof_unsigned_int,
       KCall.printk LogLevel.KERN_INFO
         "randnumchar: Failed to send %d characters to the user\n" [(not_copied : Int)]] := by
  have hne : to_int (not_copied : Int) ≠ 0 := by
    unfold sizeof_unsigned_int at hle
    unfold to_int
    omega
  have heq : to_int (not_copied : Int) = not_copied := by
    unfold sizeof_unsigned_int at hle
    unfold to_int
    omega
  simp [dev_read, copy_to_user, get_random_bytes, printk, State.call, heq, h0, to_long, EFAULT]

/-- A read whose copy leaves 3 bytes uncopied returns -14 and keeps the counter. -/
theorem dev_read_copy_fault_witness :
    (dev_read afterFailedRead 0 4096 8 0 sampleBytes 3).1 = -14 ∧
    (dev_read afterFailedRead 0 4096 8 0 sampleBytes 3).2.numberOpens
      = afterFailedRead.numberOpens :=
  ⟨(dev_read_copy_fault afterFailedRead 0 4096 8 0 sampleBytes 3 (by decide) (by decide)).2.1,
   (dev_read_copy_fault afterFailedRead 0 4096 8 0 sampleBytes 3 (by decide) (by decide)).2.2.1⟩

/-- C8: for every state, `dev_release` returns 0 and leaves the counter, the
buffer, the identity variables and the registration state as they were; it only
logs. -/
theorem dev_release_frame (s : State) (inodep filep : Ptr) :
    (dev_release s inodep filep).1 = 0 ∧
    (dev_release s inodep filep).2.numberOpens = s.numberOpens ∧
    ¬ (dev_release s inodep filep).2.numberOpens < s.numberOpens ∧
    (dev_release s inodep filep).2.randnum = s.randnum ∧
    (dev_release s inodep filep).2.majorNumber = s.majorNumber ∧
    (dev_release s inodep filep).2.randnumcharClass = s.randnumcharClass ∧
    (dev_release s inodep filep).2.randnumcharDevice = s.randnumcharDevice ∧
    (dev_release s inodep filep).2.registry = s.registry ∧
    (dev_release s inodep filep).2.klog = s.klog ++
      [KCall.printk LogLevel.KERN_INFO "randnumchar: Device successfully closed\n" []] := by
  simp [dev_release, printk, State.call]

/-- C9: `dev_read` does not look at the requested length.  For every requested
length the generator is asked for exactly `sizeof(unsigned int)` = 4 bytes, stored
from the start of `randnum`; `copy_to_user` is offered exactly those 4 bytes; the
bytes of `randnum` from index 4 on are kept; and the whole outcome (returned value,
state, calls made) is the same for any two requested lengths. -/
theorem dev_read_ignores_len (s : State) (filep buffer : Ptr) (len len2 : Nat) (offset : Ptr)
    (rnd : Nat → Byte) (not_copied : Nat) :
    dev_read s filep buffer len offset rnd not_copied
      = dev_read s filep buffer len2 offset rnd not_copied ∧
    sizeof_unsigned_int = 4 ∧
    (dev_read s filep buffer len offset rnd not_copied).2.klog.take (s.klog.length + 2)
      = s.klog ++
        [KCall.get_random_bytes 4,
         KCall.copy_to_user buffer
           ((dev_read s filep buffer len offset rnd not_copied).2.randnum.take 4) 4] ∧
    (dev_read s filep buffer len offset rnd not_copied).2.klog.length = s.klog.length + 3 ∧
    (dev_read s filep buffer len offset rnd not_copied).2.randnum
      = (List.range (min 4 s.randnum.length)).map rnd ++ s.randnum.drop 4 ∧
    (dev_read s filep buffer len offset rnd not_copied).2.randnum.drop 4 = s.randnum.drop 4 ∧
    (dev_read s filep buffer len offset rnd not_copied).2.randnum.length = s.randnum.length ∧
    (4 ≤ s.randnum.length →
      (dev_read s filep buffer len offset rnd not_copied).2.randnum.take 4
        = [rnd 0, rnd 1, rnd 2, rnd 3]) := by
  have hd := fill_bytes_drop rnd s.randnum 4
  have hl := fill_bytes_length rnd s.randnum 4
  refine ⟨rfl, rfl, ?_, ?_, ?_, ?_, ?_, ?_⟩
  · by_cases h : to_int (not_copied : Int) = 0 <;>
      simp [dev_read, copy_to_user, get_random_bytes, printk, State.call, h, sizeof_unsigned_int,
        List.take_append_eq_append_take]
  · by_cases h : to_int (not_copied : Int) = 0 <;>
      simp [dev_read, copy_to_user, get_random_bytes, printk, State.call, h]
  · by_cases h : to_int (not_copied : Int) = 0 <;>
      simp [dev_read, copy_to_user, get_random_bytes, printk, State.call, h, sizeof_unsigned_int,
        fill_bytes]
  · by_cases h : to_int (not_copied : Int) = 0 <;>
      simpa [dev_read, copy_to_user, get_random_bytes, printk, State.call, h,
        sizeof_unsigned_int] using hd
  · by_cases h : to_int (not_copied : Int) = 0 <;>
      simpa [dev_read, copy_to_user, get_random_bytes, printk, State.call, h,
        sizeof_unsigned_int] using hl
  · intro h4
    have ht := fill_bytes_take rnd s.randnum 4 h4
    have hr : (List.range 4).map rnd = [rnd 0, rnd 1, rnd 2, rnd 3] := rfl
    rw [hr] at ht
    by_cases h : to_int (not_copied : Int) = 0 <;>
      simpa [dev_read, copy_to_user, get_random_bytes, printk, State.call, h,
        sizeof_unsigned_int] using ht

/-- At the loaded module, a read of requested length 0 and one of requested length
1000 have the same outcome, and the first four bytes of `randnum` are the generated
ones. -/
theorem dev_read_ignores_len_witness :
    dev_read State.initial 0 4096 0 0 sampleBytes 0
      = dev_read State.initial 0 4096 1000 0 sampleBytes 0 ∧
    (dev_read State.initial 0 4096 0 0 sampleBytes 0).2.randnum.take 4
      = [sampleBytes 0, sampleBytes 1, sampleBytes 2, sampleBytes 3] :=
  ⟨(dev_read_ignores_len State.initial 0 4096 0 1000 0 sampleBytes 0).1,
   (dev_read_ignores_len State.initial 0 4096 0 1000 0 sampleBytes 0).2.2.2.2.2.2.2
     (le_of_le_of_eq (by decide : 4 ≤ RANDNUM_MAXSIZE) (List.length_replicate _ _).symm)⟩

/-- C3 (as amended): for every buffer argument and every length, `dev_write`
leaves the counter, the buffer, the identity variables and the registration state
unchanged and only logs; and for every length that fits the `ssize_t` result (at
most `SSIZE_MAX`) it returns exactly that length. -/
theorem dev_write_returns_len (s : State) (filep buffer : Ptr) (len : Nat) (offset : Ptr) :
    ((len : Int) ≤ SSIZE_MAX → (dev_write s filep buffer len offset).1 = len) ∧
    (dev_write s filep buffer len offset).2.numberOpens = s.numberOpens ∧
    (dev_write s filep buffer len offset).2.randnum = s.randnum ∧
    (dev_write s filep buffer len offset).2.majorNumber = s.majorNumber ∧
    (dev_write s filep buffer len offset).2.randnumcharClass = s.randnumcharClass ∧
    (dev_write s filep buffer len offset).2.randnumcharDevice = s.randnumcharDevice ∧
    (dev_write s filep buffer len offset).2.registry = s.registry ∧
    (dev_write s filep buffer len offset).2.klog = s.klog ++
      [KCall.printk LogLevel.KERN_INFO "randnumchar: Write operation is not supported.\n" []] := by
  refine ⟨?_, rfl, rfl, rfl, rfl, rfl, rfl, rfl⟩
  intro hlen
  have h1 := to_unsigned_long_of_range len hlen
  have h2 : to_long (to_unsigned_long len) = len := by
    rw [h1]
    exact to_long_of_range _ (by omega) hlen
  simp [dev_write, h2]

/-- A write of 10 bytes reports 10 and keeps the counter and the buffer; a write of
`SIZE_MAX` bytes keeps the counter, the buffer and the registration state too. -/
theorem dev_write_returns_len_witness :
    (dev_write afterFailedRead 0 4096 10 0).1 = 10 ∧
    (dev_write afterFailedRead 0 4096 10 0).2.numberOpens = afterFailedRead.numberOpens ∧
    (dev_write afterFailedRead 0 4096 10 0).2.randnum = afterFailedRead.randnum ∧
    (dev_write afterFailedRead 0 4096 SIZE_MAX 0).2.numberOpens = afterFailedRead.numberOpens ∧
    (dev_write afterFailedRead 0 4096 SIZE_MAX 0).2.randnum = afterFailedRead.randnum ∧
    (dev_write afterFailedRead 0 4096 SIZE_MAX 0).2.registry = afterFailedRead.registry :=
  ⟨(dev_write_returns_len afterFailedRead 0 4096 10 0).1 (by decide),
   (dev_write_returns_len afterFailedRead 0 4096 10 0).2.1,
   (dev_write_returns_len afterFailedRead 0 4096 10 0).2.2.1,
   (dev_write_returns_len afterFailedRead 0 4096 SIZE_MAX 0).2.1,
   (dev_write_returns_len afterFailedRead 0 4096 SIZE_MAX 0).2.2.1,
   (dev_write_returns_len afterFailedRead 0 4096 SIZE_MAX 0).2.2.2.2.2.2.1⟩

/-- C3 fails as stated: the `size_t` length `SIZE_MAX` = 2^64 - 1 comes back from
`dev_write` as the `ssize_t` -1, not as that length. -/
theorem dev_write_SIZE_MAX_returns_minus_one :
    (dev_write State.initial 0 0 SIZE_MAX 0).1 = -1 ∧
    (dev_write State.initial 0 0 SIZE_MAX 0).1 ≠ (SIZE_MAX : Int) := by
  decide

/-- C4 (as amended): for every state, `dev_open` returns 0, leaves the buffer, the
identity variables and the registration state unchanged and only logs; and for
every state whose counter is an `int` below `INT_MAX`, the counter afterwards is
the counter before plus exactly 1, hence strictly greater. -/
theorem dev_open_increments (s : State) (inodep filep : Ptr) :
    (dev_open s inodep filep).1 = 0 ∧
    (dev_open s inodep filep).2.randnum = s.randnum ∧
    (dev_open s inodep filep).2.majorNumber = s.majorNumber ∧
    (dev_open s inodep filep).2.randnumcharClass = s.randnumcharClass ∧
    (dev_open s inodep filep).2.randnumcharDevice = s.randnumcharDevice ∧
    (dev_open s inodep filep).2.registry = s.registry ∧
    (dev_open s inodep filep).2.klog = s.klog ++
      [KCall.printk LogLevel.KERN_INFO "randnumchar: Device has been opened %d time(s)\n"
        [(dev_open s inodep filep).2.numberOpens]] ∧
    (INT_MIN ≤ s.numberOpens → s.numberOpens < INT_MAX →
      (dev_open s inodep filep).2.numberOpens = s.numberOpens + 1 ∧
      s.numberOpens < (dev_open s inodep filep).2.numberOpens) := by
  refine ⟨rfl, rfl, rfl, rfl, rfl, rfl, rfl, ?_⟩
  intro hmin hmax
  have h : to_int (s.numberOpens + 1) = s.numberOpens + 1 :=
    to_int_of_range _ (by omega) (by omega)
  simp [dev_open, printk, State.call, h]

/-- An open right after a failed read returns 0, keeps the buffer and raises the
counter by 1; an open with the counter at `INT_MAX` still returns 0 and keeps the
buffer. -/
theorem dev_open_increments_witness :
    (dev_open afterFailedRead 0 0).1 = 0 ∧
    (dev_open afterFailedRead 0 0).2.randnum = afterFailedRead.randnum ∧
    (dev_open afterFailedRead 0 0).2.numberOpens = afterFailedRead.numberOpens + 1 ∧
    afterFailedRead.numberOpens < (dev_open afterFailedRead 0 0).2.numberOpens ∧
    (dev_open counterAtMax 0 0).1 = 0 ∧
    (dev_open counterAtMax 0 0).2.randnum = counterAtMax.randnum :=
  ⟨(dev_open_increments afterFailedRead 0 0).1,
   (dev_open_increments afterFailedRead 0 0).2.1,
   ((dev_open_increments afterFailedRead 0 0).2.2.2.2.2.2.2 (by decide) (by decide)).1,
   ((dev_open_increments afterFailedRead 0 0).2.2.2.2.2.2.2 (by decide) (by decide)).2,
   (dev_open_increments counterAtMax 0 0).1,
   (dev_open_increments counterAtMax 0 0).2.1⟩

/-- C4 fails as stated: with the counter at `INT_MAX`, `dev_open` returns 0 and
leaves the counter at `INT_MIN`, which is not greater than before. -/
theorem dev_open_at_INT_MAX_wraps :
    (dev_open counterAtMax 0 0).1 = 0 ∧
    counterAtMax.numberOpens = 2147483647 ∧
    (dev_open counterAtMax 0 0).2.numberOpens = -2147483648 ∧
    ¬ counterAtMax.numberOpens < (dev_open counterAtMax 0 0).2.numberOpens ∧
    (dev_open counterAtMax 0 0).2.numberOpens ≠ counterAtMax.numberOpens + 1 := by
  decide

/-- C10 (as amended): starting from a state with the counter at 0, after any finite
sequence of open, read (succeeding or failing), write and close calls that has at
most `INT_MAX` opens, the counter equals the number of opens in the sequence.  Only
an open changes the counter; while the counter is an `int` below `INT_MAX` no call
lowers it; and the value a call returns does not depend on the counter. -/
theorem numberOpens_counts_opens (s : State) (calls : List Call) (h0 : s.numberOpens = 0)
    (hn : (countOpens calls : Int) ≤ INT_MAX) :
    (run s calls).numberOpens = countOpens calls ∧
    (∀ (t : State) (c : Call), c.isOpen = false → (fops t c).2.numberOpens = t.numberOpens) ∧
    (∀ (t : State) (c : Call), INT_MIN ≤ t.numberOpens → t.numberOpens < INT_MAX →
      t.numberOpens ≤ (fops t c).2.numberOpens) ∧
    (∀ (t : State) (c : Call) (n : Int), (fops { t with numberOpens := n } c).1 = (fops t c).1) := by
  refine ⟨?_, ?_, ?_, ?_⟩
  · have hs : to_int s.numberOpens = s.numberOpens := by rw [h0]; rfl
    rw [run_numberOpens calls s hs, h0, Int.zero_add]
    exact to_int_of_range _ (by unfold INT_MIN; omega) hn
  · intro t c hc
    rw [fops_numberOpens, hc]
    simp
  · intro t c hmin hmax
    rw [fops_numberOpens]
    split
    · rw [to_int_of_range _ (by omega) (by omega)]
      omega
    · exact Int.le_refl _
  · intro t c n
    cases c with
    | dev_open inodep filep => rfl
    | dev_read filep buffer len offset rnd not_copied =>
      by_cases h : to_int (not_copied : Int) = 0 <;>
        simp [fops, dev_read, copy_to_user, h]
    | dev_write filep buffer len offset => rfl
    | dev_release inodep filep => rfl

/-- After the sample session, with its two opens, the counter is 2. -/
theorem numberOpens_counts_opens_witness :
    (run State.initial sampleSession).numberOpens = countOpens sampleSession ∧
    countOpens sampleSession = 2 :=
  ⟨(numberOpens_counts_opens State.initial sampleSession rfl (by decide)).1, by decide⟩

/-- C10 fails as stated: after 2^31 opens from the initial state the counter is
-2^31, not the number of opens. -/
theorem numberOpens_after_manyOpens :
    (run State.initial manyOpens).numberOpens = -2147483648 ∧
    countOpens manyOpens = 2147483648 ∧
    (run State.initial manyOpens).numberOpens ≠ (countOpens manyOpens : Int) := by
  have hc : countOpens manyOpens = 2147483648 := by
    unfold countOpens manyOpens
    rw [List.countP_replicate]
    rfl
  have hr : (run State.initial manyOpens).numberOpens = -2147483648 := by
    rw [run_numberOpens manyOpens State.initial rfl, hc]
    rfl
  refine ⟨hr, hc, ?_⟩
  rw [hr, hc]
  decide

/-! ## The registration manager -/

theorem randnumchar_init_chrdev_fails (s : State) (chrdev_resp : Int) (class_resp device_resp : Ptr)
    (h1 : chrdev_resp < 0) :
    randnumchar_init s chrdev_resp class_resp device_resp =
      (chrdev_resp,
        { s with
          majorNumber := chrdev_resp
          klog := s.klog ++
            [KCall.printk LogLevel.KERN_INFO "randnumchar: Initializing the randnumchar LKM\n" [],
             KCall.register_chrdev 0 DEVICE_NAME,
             KCall.printk LogLevel.KERN_ALERT
               "randnumchar failed to register a major number\n" []] }) := by
  simp [randnumchar_init, register_chrdev, printk, State.call, h1]

theorem randnumchar_init_class_fails (s : State) (chrdev_resp : Int) (class_resp device_resp : Ptr)
    (h1 : 0 ≤ chrdev_resp) (h2 : IS_ERR class_resp = true) :
    randnumchar_init s chrdev_resp class_resp device_resp =
      (PTR_ERR class_resp,
        { s with
          majorNumber := chrdev_resp
          randnumcharClass := class_resp
          registry := { s.registry with chrdev := none }
          klog := s.klog ++
            [KCall.printk LogLevel.KERN_INFO "randnumchar: Initializing the randnumchar LKM\n" [],
             KCall.register_chrdev 0 DEVICE_NAME,
             KCall.printk LogLevel.KERN_INFO
               "randnumchar: registered correctly with major number %d\n" [chrdev_resp],
             KCall.class_create CLASS_NAME,
             KCall.unregister_chrdev (to_unsigned_int chrdev_resp) DEVICE_NAME,
             KCall.printk LogLevel.KERN_ALERT "Failed to register device class\n" []] }) := by
  have h1n : ¬ chrdev_resp < 0 := by omega
  simp [randnumchar_init, register_chrdev, class_create, unregister_chrdev, printk, State.call,
    h1n, h2, to_int_PTR_ERR]

theorem randnumchar_init_device_fails (s : State) (chrdev_resp : Int)
    (class_resp device_resp : Ptr)
    (h1 : 0 ≤ chrdev_resp) (h2 : IS_ERR class_resp = false) (h3 : IS_ERR device_resp = true) :
    randnumchar_init s chrdev_resp class_resp device_resp =
      (PTR_ERR device_resp,
        { s with
          majorNumber := chrdev_resp
          randnumcharClass := class_resp
          randnumcharDevice := device_resp
          registry := { s.registry with chrdev := none, cls := none }
          klog := s.klog ++
            [KCall.printk LogLevel.KERN_INFO "randnumchar: Initializing the randnumchar LKM\n" [],
             KCall.register_chrdev 0 DEVICE_NAME,
             KCall.printk LogLevel.KERN_INFO
               "randnumchar: registered correctly with major number %d\n" [chrdev_resp],
             KCall.class_create CLASS_NAME,
             KCall.printk LogLevel.KERN_INFO
               "randnumchar: device class registered correctly\n" [],
             KCall.device_create class_resp NULL (MKDEV chrdev_resp 0) NULL DEVICE_NAME,
             KCall.class_destroy class_resp,
             KCall.unregister_chrdev (to_unsigned_int chrdev_resp) DEVICE_NAME,
             KCall.printk LogLevel.KERN_ALERT "Failed to create the device\n" []] }) := by
  have h1n : ¬ chrdev_resp < 0 := by omega
  simp [randnumchar_init, register_chrdev, class_create, device_create, class_destroy,
    unregister_chrdev, printk, State.call, h1n, h2, h3, to_int_PTR_ERR]

theorem randnumchar_init_succeeds (s : State) (chrdev_resp : Int) (class_resp device_resp : Ptr)
    (h1 : 0 ≤ chrdev_resp) (h2 : IS_ERR class_resp = false) (h3 : IS_ERR device_resp = false) :
    randnumchar_init s chrdev_resp class_resp device_resp =
      (0,
        { s with
          majorNumber := chrdev_resp
          randnumcharClass := class_resp
          randnumcharDevice := device_resp
          registry :=
            { chrdev := some (to_unsigned_int chrdev_resp, DEVICE_NAME)
              cls := some (class_resp, ClassStage.registered)
              node := some (device_resp, class_resp, MKDEV chrdev_resp 0) }
          klog := s.klog ++
            [KCall.printk LogLevel.KERN_INFO "randnumchar: Initializing the randnumchar LKM\n" [],
             KCall.register_chrdev 0 DEVICE_NAME,
             KCall.printk LogLevel.KERN_INFO
               "randnumchar: registered correctly with major number %d\n" [chrdev_resp],
             KCall.class_create CLASS_NAME,
             KCall.printk LogLevel.KERN_INFO
               "randnumchar: device class registered correctly\n" [],
             KCall.device_create class_resp NULL (MKDEV chrdev_resp 0) NULL DEVICE_NAME,
             KCall.printk LogLevel.KERN_INFO
               "randnumchar: device class created correctly\n" []] }) := by
  have h1n : ¬ chrdev_resp < 0 := by omega
  simp [randnumchar_init, register_chrdev, class_create, device_create, printk, State.call,
    h1n, h2, h3]

theorem FullyInitialised_of_init (s : State) (chrdev_resp : Int) (class_resp device_resp : Ptr)
    (h1 : 0 ≤ chrdev_resp) (h2 : IS_ERR class_resp = false) (h3 : IS_ERR device_resp = false) :
    FullyInitialised (randnumchar_init s chrdev_resp class_resp device_resp).2 := by
  rw [randnumchar_init_succeeds s chrdev_resp class_resp device_resp h1 h2 h3]
  exact ⟨rfl, rfl, rfl⟩

theorem fops_frame (s : State) (c : Call) :
    (fops s c).2.registry = s.registry ∧
    (fops s c).2.majorNumber = s.majorNumber ∧
    (fops s c).2.randnumcharClass = s.randnumcharClass ∧
    (fops s c).2.randnumcharDevice = s.randnumcharDevice := by
  cases c with
  | dev_open inodep filep => simp [fops, dev_open, printk, State.call]
  | dev_read filep buffer len offset rnd not_copied =>
    by_cases h : to_int (not_copied : Int) = 0 <;>
      simp [fops, dev_read, copy_to_user, get_random_bytes, printk, State.call, h]
  | dev_write filep buffer len offset => simp [fops, dev_write, printk, State.call]
  | dev_release inodep filep => simp [fops, dev_release, printk, State.call]

theorem run_frame (calls : List Call) :
    ∀ s : State,
      (run s calls).registry = s.registry ∧
      (run s calls).majorNumber = s.majorNumber ∧
      (run s calls).randnumcharClass = s.randnumcharClass ∧
      (run s calls).randnumcharDevice = s.randnumcharDevice := by
  induction calls with
  | nil => intro s; exact ⟨rfl, rfl, rfl, rfl⟩
  | cons c cs ih =>
    intro s
    rw [run_cons]
    obtain ⟨a1, a2, a3, a4⟩ := ih (fops s c).2
    obtain ⟨b1, b2, b3, b4⟩ := fops_frame s c
    exact ⟨a1.trans b1, a2.trans b2, a3.trans b3, a4.trans b4⟩

theorem FullyInitialised_run (s : State) (calls : List Call) (h : FullyInitialised s) :
    FullyInitialised (run s calls) := by
  obtain ⟨a1, a2, a3, a4⟩ := run_frame calls s
  unfold FullyInitialised at *
  rw [a1, a2, a3, a4]
  exact h

theorem randnumchar_exit_of_FullyInitialised (s : State) (h : FullyInitialised s) :
    randnumchar_exit s =
      { s with
        registry := Registry.empty
        klog := s.klog ++
          [KCall.device_destroy s.randnumcharClass (MKDEV s.majorNumber 0),
           KCall.class_unregister s.randnumcharClass,
           KCall.class_destroy s.randnumcharClass,
           KCall.unregister_chrdev (to_unsigned_int s.majorNumber) DEVICE_NAME,
           KCall.printk LogLevel.KERN_INFO "randnumchar: Goodbye from the LKM!\n" []] } := by
  obtain ⟨h1, h2, h3⟩ := h
  simp [randnumchar_exit, device_destroy, class_unregister, class_destroy, unregister_chrdev,
    printk, State.call, h1, h2, h3, Registry.empty]

/-- C5: in `randnumchar_init`, when the device number and the class are obtained
but `device_create` answers an error, the module calls `class_destroy` and then
`unregister_chrdev`, in that order, logs, and returns the error of `device_create`,
a negative number; afterwards the service holds neither a class nor a device
number (and the node entry is as it was before the call). -/
theorem randnumchar_init_node_failure_rollback (s : State) (chrdev_resp : Int)
    (class_resp device_resp : Ptr)
    (h1 : 0 ≤ chrdev_resp) (h2 : IS_ERR class_resp = false) (h3 : IS_ERR device_resp = true) :
    (randnumchar_init s chrdev_resp class_resp device_resp).1 = PTR_ERR device_resp ∧
    (randnumchar_init s chrdev_resp class_resp device_resp).1 < 0 ∧
    (randnumchar_init s chrdev_resp class_resp device_resp).2.klog = s.klog ++
      [KCall.printk LogLevel.KERN_INFO "randnumchar: Initializing the randnumchar LKM\n" [],
       KCall.register_chrdev 0 DEVICE_NAME,
       KCall.printk LogLevel.KERN_INFO
         "randnumchar: registered correctly with major number %d\n" [chrdev_resp],
       KCall.class_create CLASS_NAME,
       KCall.printk LogLevel.KERN_INFO "randnumchar: device class registered correctly\n" [],
       KCall.device_create class_resp NULL (MKDEV chrdev_resp 0) NULL DEVICE_NAME,
       KCall.class_destroy class_resp,
       KCall.unregister_chrdev (to_unsigned_int chrdev_resp) DEVICE_NAME,
       KCall.printk LogLevel.KERN_ALERT "Failed to create the device\n" []] ∧
    (randnumchar_init s chrdev_resp class_resp device_resp).2.registry.cls = none ∧
    (randnumchar_init s chrdev_resp class_resp device_resp).2.registry.chrdev = none ∧
    (randnumchar_init s chrdev_resp class_resp device_resp).2.registry.node = s.registry.node := by
  rw [randnumchar_init_device_fails s chrdev_resp class_resp device_resp h1 h2 h3]
  exact ⟨rfl, (PTR_ERR_range device_resp h3).2, rfl, rfl, rfl, rfl⟩

/-- With major 240, class handle 1000 and `device_create` answering the error -12,
the module returns -12 and holds neither class nor device number. -/
theorem randnumchar_init_node_failure_rollback_witness :
    (randnumchar_init State.initial 240 1000 18446744073709551604).1 = -12 ∧
    (randnumchar_init State.initial 240 1000 18446744073709551604).2.registry.cls = none ∧
    (randnumchar_init State.initial 240 1000 18446744073709551604).2.registry.chrdev = none :=
  ⟨(randnumchar_init_node_failure_rollback State.initial 240 1000 18446744073709551604
      (by decide) (by decide) (by decide)).1.trans (by decide),
   (randnumchar_init_node_failure_rollback State.initial 240 1000 18446744073709551604
      (by decide) (by decide) (by decide)).2.2.2.1,
   (randnumchar_init_node_failure_rollback State.initial 240 1000 18446744073709551604
      (by decide) (by decide) (by decide)).2.2.2.2.1⟩

/-- C6: starting with nothing held, for every combination of answers to the three
registration steps, `randnumchar_init` returns 0 exactly when all three succeeded,
and then the device number, the class and the node are all held; otherwise it
returns the negative error of the first failing step, nothing is held, and the
calls made stop at the failing step followed by the release of what the earlier
steps obtained. -/
theorem randnumchar_init_all_or_nothing (s : State) (chrdev_resp : Int)
    (class_resp device_resp : Ptr) (hs : s.registry = Registry.empty) :
    ((randnumchar_init s chrdev_resp class_resp device_resp).1 = 0 ↔
      (0 ≤ chrdev_resp ∧ IS_ERR class_resp = false ∧ IS_ERR device_resp = false)) ∧
    ((randnumchar_init s chrdev_resp class_resp device_resp).1 = 0 →
      FullyInitialised (randnumchar_init s chrdev_resp class_resp device_resp).2 ∧
      (randnumchar_init s chrdev_resp class_resp device_resp).2.registry =
        { chrdev := some (to_unsigned_int chrdev_resp, DEVICE_NAME)
          cls := some (class_resp, ClassStage.registered)
          node := some (device_resp, class_resp, MKDEV chrdev_resp 0) }) ∧
    ((randnumchar_init s chrdev_resp class_resp device_resp).1 ≠ 0 →
      (randnumchar_init s chrdev_resp class_resp device_resp).1 < 0 ∧
      (randnumchar_init s chrdev_resp class_resp device_resp).2.registry = Registry.empty) ∧
    (chrdev_resp < 0 →
      (randnumchar_init s chrdev_resp class_resp device_resp).1 = chrdev_resp ∧
      (randnumchar_init s chrdev_resp class_resp device_resp).2.klog = s.klog ++
        [KCall.printk LogLevel.KERN_INFO "randnumchar: Initializing the randnumchar LKM\n" [],
         KCall.register_chrdev 0 DEVICE_NAME,
         KCall.printk LogLevel.KERN_ALERT
           "randnumchar failed to register a major number\n" []]) ∧
    (0 ≤ chrdev_resp → IS_ERR class_resp = true →
      (randnumchar_init s chrdev_resp class_resp device_resp).1 = PTR_ERR class_resp ∧
      (randnumchar_init s chrdev_resp class_resp device_resp).2.klog = s.klog ++
        [KCall.printk LogLevel.KERN_INFO "randnumchar: Initializing the randnumchar LKM\n" [],
         KCall.register_chrdev 0 DEVICE_NAME,
         KCall.printk LogLevel.KERN_INFO
           "randnumchar: registered correctly with major number %d\n" [chrdev_resp],
         KCall.class_create CLASS_NAME,
         KCall.unregister_chrdev (to_unsigned_int chrdev_resp) DEVICE_NAME,
         KCall.printk LogLevel.KERN_ALERT "Failed to register device class\n" []]) ∧
    (0 ≤ chrdev_resp → IS_ERR class_resp = false → IS_ERR device_resp = true →
      (randnumchar_init s chrdev_resp class_resp device_resp).1 = PTR_ERR device_resp ∧
      (randnumchar_init s chrdev_resp class_resp device_resp).2.klog = s.klog ++
        [KCall.printk LogLevel.KERN_INFO "randnumchar: Initializing the randnumchar LKM\n" [],
         KCall.register_chrdev 0 DEVICE_NAME,
         KCall.printk LogLevel.KERN_INFO
           "randnumchar: registered correctly with major number %d\n" [chrdev_resp],
         KCall.class_create CLASS_NAME,
         KCall.printk LogLevel.KERN_INFO "randnumchar: device class registered correctly\n" [],
         KCall.device_create class_resp NULL (MKDEV chrdev_resp 0) NULL DEVICE_NAME,
         KCall.class_destroy class_resp,
         KCall.unregister_chrdev (to_unsigned_int chrdev_resp) DEVICE_NAME,
         KCall.printk LogLevel.KERN_ALERT "Failed to create the device\n" []]) := by
  have hreg : ({ s.registry with chrdev := none } : Registry) = Registry.empty := by
    rw [hs]; rfl
  have hreg2 : ({ s.registry with chrdev := none, cls := none } : Registry) = Registry.empty := by
    rw [hs]; rfl
  by_cases h1 : chrdev_resp < 0
  · have e := randnumchar_init_chrdev_fails s chrdev_resp class_resp device_resp h1
    have hne : chrdev_resp ≠ 0 := by omega
    have hn0 : ¬ 0 ≤ chrdev_resp := by omega
    rw [e]
    simp [hne, hn0, h1, hs]
  · have h1p : 0 ≤ chrdev_resp := by omega
    cases h2 : IS_ERR class_resp with
    | true =>
      have e := randnumchar_init_class_fails s chrdev_resp class_resp device_resp h1p h2
      have hr := PTR_ERR_range class_resp h2
      have hne : PTR_ERR class_resp ≠ 0 := by omega
      rw [e]
      simp [hne, h1, hr.2, hreg]
    | false =>
      cases h3 : IS_ERR device_resp with
      | true =>
        have e := randnumchar_init_device_fails s chrdev_resp class_resp device_resp h1p h2 h3
        have hr := PTR_ERR_range device_resp h3
        have hne : PTR_ERR device_resp ≠ 0 := by omega
        rw [e]
        simp [hne, h1, hr.2, hreg2]
      | false =>
        have e := randnumchar_init_succeeds s chrdev_resp class_resp device_resp h1p h2 h3
        have hf := FullyInitialised_of_init s chrdev_resp class_resp device_resp h1p h2 h3
        rw [e] at hf ⊢
        simp [h1, h1p, hf]

/-- With major 240 and `class_create` answering the error -12, the module returns
-12 and nothing is held. -/
theorem randnumchar_init_all_or_nothing_witness :
    (randnumchar_init State.initial 240 18446744073709551604 2000).1 = -12 ∧
    (randnumchar_init State.initial 240 18446744073709551604 2000).2.registry = Registry.empty :=
  ⟨((randnumchar_init_all_or_nothing State.initial 240 18446744073709551604 2000 rfl).2.2.2.2.1
      (by decide) (by decide)).1.trans (by decide),
   ((randnumchar_init_all_or_nothing State.initial 240 18446744073709551604 2000 rfl).2.2.1
      (by decide)).2⟩

/-- C7: from a fully set up module, after any finite sequence of open, read, write
and close calls, `randnumchar_exit` calls `device_destroy`, `class_unregister`,
`class_destroy` and `unregister_chrdev` once each, in that order, on the handles
obtained at set-up, then logs; afterwards the service holds none of the node, the
class and the device number. -/
theorem randnumchar_exit_releases_all (s : State) (calls : List Call)
    (h : FullyInitialised s) :
    (randnumchar_exit (run s calls)).klog = (run s calls).klog ++
      [KCall.device_destroy s.randnumcharClass (MKDEV s.majorNumber 0),
       KCall.class_unregister s.randnumcharClass,
       KCall.class_destroy s.randnumcharClass,
       KCall.unregister_chrdev (to_unsigned_int s.majorNumber) DEVICE_NAME,
       KCall.printk LogLevel.KERN_INFO "randnumchar: Goodbye from the LKM!\n" []] ∧
    (run s calls).registry.node = some (s.randnumcharDevice, s.randnumcharClass,
      MKDEV s.majorNumber 0) ∧
    (run s calls).registry.cls = some (s.randnumcharClass, ClassStage.registered) ∧
    (run s calls).registry.chrdev = some (to_unsigned_int s.majorNumber, DEVICE_NAME) ∧
    (randnumchar_exit (run s calls)).registry.node = none ∧
    (randnumchar_exit (run s calls)).registry.cls = none ∧
    (randnumchar_exit (run s calls)).registry.chrdev = none := by
  obtain ⟨a1, a2, a3, a4⟩ := run_frame calls s
  have e := randnumchar_exit_of_FullyInitialised (run s calls) (FullyInitialised_run s calls h)
  obtain ⟨h1, h2, h3⟩ := h
  rw [e, a1, h1, h2, h3]
  simp [a2, a3, Registry.empty]

/-- After a successful set-up and the sample session, unloading leaves nothing held. -/
theorem randnumchar_exit_releases_all_witness :
    (randnumchar_exit
      (run (randnumchar_init State.initial 240 1000 2000).2 sampleSession)).registry.node = none ∧
    (randnumchar_exit
      (run (randnumchar_init State.initial 240 1000 2000).2 sampleSession)).registry.cls = none ∧
    (randnumchar_exit
      (run (randnumchar_init State.initial 240 1000 2000).2 sampleSession)).registry.chrdev = none :=
  (randnumchar_exit_releases_all (randnumchar_init State.initial 240 1000 2000).2 sampleSession
    (FullyInitialised_of_init State.initial 240 1000 2000 (by decide) (by decide)
      (by decide))).2.2.2.2

end Randnumchar
